import Mathlib

/-!
Shallow embedding of the IOT_backend relay hub (ESP32-CAM / car backend).

The definitions below are transcribed from the JavaScript sources:
* `routes/car.js` — the REST car-control endpoint (`POST /car/control`);
* the camera router (`POST /frame`, `GET /snapshot`, `POST /capture`);
* the `app.js` connection monitor and FPS interval.

JavaScript request bodies are modelled with `Option` for possibly absent
fields; JS falsy-defaulting (`x || 200`) is modelled explicitly; machine
timestamps are natural-number milliseconds.
-/

namespace IotBackend

/-- Byte payload of a camera frame (a Node `Buffer`). -/
abbrev Frame := List Nat

/-- The fixed command whitelist of `POST /car/control`
(`var validCommands = ['forward','backward','left','right','stop']`). -/
def validCommands : List String := ["forward", "backward", "left", "right", "stop"]

/-- `var speed = req.body.speed || 200`: a falsy `speed` (absent field, or the
number 0) is replaced by the default 200; any other number is kept as is. -/
def speedOrDefault : Option Int → Int
  | none => 200
  | some v => if v = 0 then 200 else v

/-- The car's WebSocket client as the route sees it: only `readyState`
matters (`1` = OPEN). -/
structure CarClient where
  readyState : Nat
deriving DecidableEq, Repr

/-- The `carStatus` fields the control route touches. -/
structure CarStatus where
  lastCommand : Option String
  lastCommandTime : Option Nat
deriving DecidableEq, Repr

/-- The JSON command message written to the car socket
(`JSON.stringify({command, speed, ...})`). -/
structure CarMessage where
  command : String
  speed : Int
deriving DecidableEq, Repr

/-- Result of the control route: 400 invalid-command (listing the valid
commands), 503 car-not-connected, or 200 success echoing command and speed. -/
inductive ControlResult where
  | invalidCommand (valid : List String)
  | carUnavailable
  | accepted (command : String) (speed : Int) (timestamp : Nat)
deriving DecidableEq, Repr

/-- HTTP status code attached to each control outcome in the source. -/
def httpStatus : ControlResult → Nat
  | .invalidCommand _ => 400
  | .carUnavailable => 503
  | .accepted _ _ _ => 200

/-- Everything observable about one `POST /car/control` request: the JSON
result, the list of messages written to the car socket during the request,
and the `carStatus` stored afterwards. -/
structure ControlOutcome where
  result : ControlResult
  sent : List CarMessage
  status : CarStatus
deriving DecidableEq, Repr

/-- `router.post('/control')` from `routes/car.js` (lines 33-86; the
`part_007` variant is the same logic plus extra echo fields):
1. read `command` and `speed || 200`;
2. reject with 400 if `command` is absent or not in `validCommands`;
3. reject with 503 if the stored `esp32CarClient` is absent or not OPEN;
4. otherwise send `{command, speed}` to the car, set
   `carStatus.lastCommand`/`lastCommandTime`, and answer 200.

An absent command is modelled as `none`; note the empty string, also falsy
in JS, is equally rejected by the whitelist test. -/
def carControl (command : Option String) (speed : Option Int)
    (esp32CarClient : Option CarClient) (carStatus : CarStatus) (now : Nat) :
    ControlOutcome :=
  let sp := speedOrDefault speed
  match command with
  | none => ⟨.invalidCommand validCommands, [], carStatus⟩
  | some c =>
      if c ∈ validCommands then
        match esp32CarClient with
        | none => ⟨.carUnavailable, [], carStatus⟩
        | some client =>
            if client.readyState = 1 then
              ⟨.accepted c sp now, [⟨c, sp⟩], ⟨some c, some now⟩⟩
            else
              ⟨.carUnavailable, [], carStatus⟩
      else
        ⟨.invalidCommand validCommands, [], carStatus⟩

end IotBackend

namespace IotBackend

/-- C1: a submitted command string outside
{forward, backward, left, right, stop} is answered with the
invalid-command error (HTTP 400, listing the valid commands), no message is
written to the car socket, and the stored car status is untouched,
for every speed and every state of the car slot. -/
theorem control_rejects_unknown_command
    (c : String) (h : c ∉ validCommands)
    (speed : Option Int) (car : Option CarClient) (st : CarStatus) (now : Nat) :
    (carControl (some c) speed car st now).result = .invalidCommand validCommands ∧
    httpStatus (carControl (some c) speed car st now).result = 400 ∧
    (carControl (some c) speed car st now).sent = [] ∧
    (carControl (some c) speed car st now).status = st := by
  simp [carControl, h, httpStatus]

/-- Witness for C1 at command "diagonal", speed 200, with an OPEN car
registered. -/
theorem control_rejects_unknown_command_witness :
    (carControl (some "diagonal") (some 200) (some ⟨1⟩) ⟨none, none⟩ 7).result
        = .invalidCommand validCommands ∧
    httpStatus (carControl (some "diagonal") (some 200) (some ⟨1⟩) ⟨none, none⟩ 7).result
        = 400 ∧
    (carControl (some "diagonal") (some 200) (some ⟨1⟩) ⟨none, none⟩ 7).sent = [] ∧
    (carControl (some "diagonal") (some 200) (some ⟨1⟩) ⟨none, none⟩ 7).status
        = ⟨none, none⟩ :=
  control_rejects_unknown_command "diagonal" (by decide)
    (some 200) (some ⟨1⟩) ⟨none, none⟩ 7

/-- C2 counterexample: submitting a valid command with speed 999 — far
outside [0,255] — while an OPEN car is registered is accepted and the
message is sent to the car with speed 999; no invalid-command error is
produced, so the route does not validate speed against [0,255]. -/
theorem control_ignores_speed_range_counterexample :
    carControl (some "forward") (some 999) (some ⟨1⟩) ⟨none, none⟩ 0
      = ⟨.accepted "forward" 999 0, [⟨"forward", 999⟩], ⟨some "forward", some 0⟩⟩ := by
  decide

/-- C2 amended: the route performs no range check on `speed`; any nonzero
speed submitted with a valid command to an OPEN car is forwarded to the car
unchanged and the request is accepted. -/
theorem control_forwards_any_speed
    (c : String) (hc : c ∈ validCommands) (v : Int) (hv : v ≠ 0)
    (cl : CarClient) (hcl : cl.readyState = 1) (st : CarStatus) (now : Nat) :
    (carControl (some c) (some v) (some cl) st now).sent = [⟨c, v⟩] ∧
    (carControl (some c) (some v) (some cl) st now).result = .accepted c v now := by
  simp [carControl, hc, hcl, speedOrDefault, hv]

/-- Witness for the amended C2 at command "forward", speed 999. -/
theorem control_forwards_any_speed_witness :
    (carControl (some "forward") (some 999) (some ⟨1⟩) ⟨none, none⟩ 0).sent
        = [⟨"forward", 999⟩] ∧
    (carControl (some "forward") (some 999) (some ⟨1⟩) ⟨none, none⟩ 0).result
        = .accepted "forward" 999 0 :=
  control_forwards_any_speed "forward" (by decide) 999 (by decide) ⟨1⟩ rfl
    ⟨none, none⟩ 0

/-- C3: for a valid command, when the car slot is empty or its socket is not
OPEN the route answers the structured 503 car-unavailable error with no
message sent and the stored car status unchanged (the availability check
precedes any send); when an OPEN car is registered, exactly the one command
message is sent and `lastCommand`/`lastCommandTime` are updated. -/
theorem control_unavailable_before_send
    (c : String) (hc : c ∈ validCommands) (speed : Option Int)
    (st : CarStatus) (now : Nat) (car : Option CarClient) :
    ((∀ cl, car = some cl → cl.readyState ≠ 1) →
      carControl (some c) speed car st now = ⟨.carUnavailable, [], st⟩ ∧
      httpStatus (carControl (some c) speed car st now).result = 503) ∧
    (∀ cl, car = some cl → cl.readyState = 1 →
      carControl (some c) speed car st now
        = ⟨.accepted c (speedOrDefault speed) now,
           [⟨c, speedOrDefault speed⟩], ⟨some c, some now⟩⟩) := by
  constructor
  · intro hun
    cases car with
    | none => simp [carControl, hc, httpStatus]
    | some cl =>
        have : cl.readyState ≠ 1 := hun cl rfl
        simp [carControl, hc, this, httpStatus]
  · intro cl hcl hrs
    subst hcl
    simp [carControl, hc, hrs]

/-- Witness for C3 at command "forward" with an empty car slot. -/
theorem control_unavailable_before_send_witness :
    ((∀ cl, (none : Option CarClient) = some cl → cl.readyState ≠ 1) →
      carControl (some "forward") (some 200) none ⟨none, none⟩ 5
        = ⟨.carUnavailable, [], ⟨none, none⟩⟩ ∧
      httpStatus (carControl (some "forward") (some 200) none ⟨none, none⟩ 5).result
        = 503) ∧
    (∀ cl, (none : Option CarClient) = some cl → cl.readyState = 1 →
      carControl (some "forward") (some 200) none ⟨none, none⟩ 5
        = ⟨.accepted "forward" 200 5, [⟨"forward", 200⟩], ⟨some "forward", some 5⟩⟩) :=
  control_unavailable_before_send "forward" (by decide) (some 200) ⟨none, none⟩ 5 none

/-- C9: a falsy `speed` field (the number 0, or an absent field) is replaced
by the default 200, so the message forwarded to an OPEN car carries speed
200 — in particular a stop command submitted with speed 0 is sent with
speed 200. -/
theorem control_defaults_falsy_speed
    (c : String) (hc : c ∈ validCommands) (speed : Option Int)
    (hs : speed = some 0 ∨ speed = none)
    (cl : CarClient) (hcl : cl.readyState = 1) (st : CarStatus) (now : Nat) :
    (carControl (some c) speed (some cl) st now).sent = [⟨c, 200⟩] ∧
    (carControl (some c) speed (some cl) st now).result = .accepted c 200 now := by
  rcases hs with h | h <;> subst h <;> simp [carControl, hc, hcl, speedOrDefault]

/-- Witness for C9: "stop" submitted with speed 0 is sent with speed 200. -/
theorem control_defaults_falsy_speed_witness :
    (carControl (some "stop") (some 0) (some ⟨1⟩) ⟨none, none⟩ 3).sent
        = [⟨"stop", 200⟩] ∧
    (carControl (some "stop") (some 0) (some ⟨1⟩) ⟨none, none⟩ 3).result
        = .accepted "stop" 200 3 :=
  control_defaults_falsy_speed "stop" (by decide) (some 0) (Or.inl rfl) ⟨1⟩ rfl
    ⟨none, none⟩ 3

/-- The `esp32Status` record of `app.js`. -/
structure Esp32Status where
  connected : Bool
  lastUpdate : Option Nat
  frameCount : Nat
  fps : Int
deriving DecidableEq, Repr

/-- A viewer WebSocket client as the broadcast loop sees it: `readyState`
(`1` = OPEN) plus whether its transport accepts the write (`writeOk`). -/
structure Viewer where
  vid : Nat
  readyState : Nat
  writeOk : Bool
deriving DecidableEq, Repr

/-- The frame envelope broadcast to viewers
(`{type:'frame', image:<base64>, timestamp}`); the image is kept as raw
bytes here. -/
structure FrameMessage where
  image : Frame
  timestamp : Nat
deriving DecidableEq, Repr

/-- One write attempt of the broadcast loop: which viewer, which message,
and whether the viewer's transport accepted the write. -/
structure SendAttempt where
  target : Viewer
  message : FrameMessage
  delivered : Bool
deriving DecidableEq, Repr

/-- The broadcast loop in `router.post('/frame')`:
`wss.clients.forEach(client => { if (client.readyState === 1)
client.send(frameMessage); })`. In the `ws` library `send` on an OPEN
socket is fire-and-forget — a transport-level write failure is reported
asynchronously on that socket, never as an exception in the loop — so each
client's attempt is recorded independently of every other client's. -/
def broadcastFrame (clients : List Viewer) (msg : FrameMessage) :
    List SendAttempt :=
  clients.filterMap fun c =>
    if c.readyState = 1 then some ⟨c, msg, c.writeOk⟩ else none

/-- The mutable application state the frame route touches: the cached
`latestFrame`, the total `frameCount`, the FPS window counter
(`framesSinceLastCheck`, bumped through `incrementFrameCount`), and
`esp32Status`. -/
structure FrameState where
  latestFrame : Option Frame
  frameCount : Nat
  framesSinceLastCheck : Nat
  esp32Status : Esp32Status
deriving DecidableEq, Repr

/-- Shape of the `POST /frame` body after Express middleware, following the
route's decode chain: raw image bytes from the content-type middleware, a
`Buffer` body, a base64 string body (decoded), a JSON body with a base64
`image` field (decoded), or anything else (no frame). -/
inductive FrameBody where
  | raw (bytes : Frame)
  | buffer (bytes : Frame)
  | base64String (bytes : Frame)
  | jsonImage (bytes : Frame)
  | invalid
deriving DecidableEq, Repr

/-- The `if/else` decode chain of `router.post('/frame')` reduced to the
frame it yields, if any. -/
def extractFrame : FrameBody → Option Frame
  | .raw b => some b
  | .buffer b => some b
  | .base64String b => some b
  | .jsonImage b => some b
  | .invalid => none

/-- Everything observable about one `POST /frame` request. -/
structure FrameOutcome where
  state : FrameState
  httpCode : Nat
  attempts : List SendAttempt
deriving DecidableEq, Repr

/-- `router.post('/frame')` (camera router, lines 36-99): on a decodable
body, overwrite `latestFrame`, bump `frameCount` and the FPS window
counter, mark the camera connected with a fresh `lastUpdate`, broadcast the
frame envelope to every OPEN WebSocket client, and answer 200; otherwise
answer 400 and change nothing. -/
def processFrame (st : FrameState) (body : FrameBody) (now : Nat)
    (clients : List Viewer) : FrameOutcome :=
  match extractFrame body with
  | none => ⟨st, 400, []⟩
  | some f =>
      let fc := st.frameCount + 1
      let status : Esp32Status :=
        { st.esp32Status with
            connected := true, lastUpdate := some now, frameCount := fc }
      ⟨⟨some f, fc, st.framesSinceLastCheck + 1, status⟩, 200,
        broadcastFrame clients ⟨f, now⟩⟩

/-- Result of `GET /snapshot`: 404 when nothing is cached, else the cached
bytes with content-type image/jpeg. -/
inductive SnapshotResult where
  | noFrame
  | jpeg (bytes : Frame)
deriving DecidableEq, Repr

/-- `router.get('/snapshot')` (camera router, lines 104-113). -/
def snapshot (st : FrameState) : SnapshotResult :=
  match st.latestFrame with
  | none => .noFrame
  | some f => .jpeg f

/-- State after a sequence of raw camera frames is posted to the frame
route, in order. -/
def receiveFrames (st : FrameState) (frames : List Frame) (now : Nat)
    (clients : List Viewer) : FrameState :=
  frames.foldl (fun s f => (processFrame s (.raw f) now clients).state) st

theorem receiveFrames_latest (frames : List Frame) (l : Frame)
    (h : frames.getLast? = some l) (st : FrameState) (now : Nat)
    (clients : List Viewer) :
    (receiveFrames st frames now clients).latestFrame = some l := by
  induction frames generalizing st with
  | nil => simp at h
  | cons f fs ih =>
      cases fs with
      | nil =>
          simp only [List.getLast?_singleton, Option.some.injEq] at h
          subst h
          simp [receiveFrames, processFrame, extractFrame]
      | cons g gs =>
          rw [List.getLast?_cons_cons] at h
          simpa [receiveFrames] using ih h _

/-- C4: each frame receipt overwrites the single cached frame, so after any
nonempty sequence of received frames the cache holds exactly the most
recent one and `GET /snapshot` returns that frame's bytes. -/
theorem frame_cache_holds_latest (frames : List Frame) (l : Frame)
    (h : frames.getLast? = some l) (st : FrameState) (now : Nat)
    (clients : List Viewer) :
    (∀ s f, (processFrame s (FrameBody.raw f) now clients).state.latestFrame
        = some f) ∧
    (receiveFrames st frames now clients).latestFrame = some l ∧
    snapshot (receiveFrames st frames now clients) = .jpeg l := by
  refine ⟨fun s f => by simp [processFrame, extractFrame], ?_, ?_⟩
  · exact receiveFrames_latest frames l h st now clients
  · rw [snapshot, receiveFrames_latest frames l h st now clients]

/-- Witness for C4: after frames [0], [1], [2] arrive, the cache and the
snapshot hold [2]. -/
theorem frame_cache_holds_latest_witness :
    (∀ s f, (processFrame s (FrameBody.raw f) 9 []).state.latestFrame
        = some f) ∧
    (receiveFrames ⟨none, 0, 0, ⟨false, none, 0, 0⟩⟩ [[0], [1], [2]] 9 []).latestFrame
        = some [2] ∧
    snapshot (receiveFrames ⟨none, 0, 0, ⟨false, none, 0, 0⟩⟩ [[0], [1], [2]] 9 [])
        = .jpeg [2] :=
  frame_cache_holds_latest [[0], [1], [2]] [2] (by decide)
    ⟨none, 0, 0, ⟨false, none, 0, 0⟩⟩ 9 []

/-- C5: in one fan-out call, every OPEN viewer whose own transport accepts
the write receives the frame, whatever the write-failure flags of the other
viewers in the set are — one viewer's failing transport does not prevent
delivery to the others. -/
theorem fanout_isolation (clients : List Viewer) (msg : FrameMessage)
    (c : Viewer) (hm : c ∈ clients) (hopen : c.readyState = 1)
    (hok : c.writeOk = true) :
    (⟨c, msg, true⟩ : SendAttempt) ∈ broadcastFrame clients msg := by
  refine List.mem_filterMap.mpr ⟨c, hm, ?_⟩
  simp [hopen, hok]

/-- Witness for C5: of three OPEN viewers the middle one's transport fails
on write; the other two both receive the frame in the same fan-out call. -/
theorem fanout_isolation_witness :
    (⟨⟨1, 1, true⟩, ⟨[7], 0⟩, true⟩ : SendAttempt)
        ∈ broadcastFrame [⟨1, 1, true⟩, ⟨2, 1, false⟩, ⟨3, 1, true⟩] ⟨[7], 0⟩ ∧
    (⟨⟨3, 1, true⟩, ⟨[7], 0⟩, true⟩ : SendAttempt)
        ∈ broadcastFrame [⟨1, 1, true⟩, ⟨2, 1, false⟩, ⟨3, 1, true⟩] ⟨[7], 0⟩ :=
  ⟨fanout_isolation [⟨1, 1, true⟩, ⟨2, 1, false⟩, ⟨3, 1, true⟩] ⟨[7], 0⟩
      ⟨1, 1, true⟩ (by decide) rfl rfl,
   fanout_isolation [⟨1, 1, true⟩, ⟨2, 1, false⟩, ⟨3, 1, true⟩] ⟨[7], 0⟩
      ⟨3, 1, true⟩ (by decide) rfl rfl⟩

/-- One side effect performed by a monitor tick: storing a new
`esp32Status`, or broadcasting a notification envelope of the given type to
the viewers (the vocabulary the application has; the camera router uses its
broadcast for `frame` envelopes). -/
inductive SweepEffect where
  | setStatus (status : Esp32Status)
  | notifyViewers (msgType : String)
deriving DecidableEq, Repr

/-- Whether an effect is a notification broadcast to viewers. -/
def SweepEffect.isNotify : SweepEffect → Bool
  | .notifyViewers _ => true
  | .setStatus _ => false

/-- The ESP32 connection monitor of `app.js` (part_005 lines 61-71), run on
a 2-second interval: when `lastUpdate` is set and
`Date.now() - lastUpdate > 5000`, it stores `esp32Status` with
`connected := false` and `fps := 0`; it performs nothing else. -/
def connectionSweep (status : Esp32Status) (now : Nat) : List SweepEffect :=
  match status.lastUpdate with
  | none => []
  | some t =>
      if (now : Int) - t > 5000 then
        [.setStatus { status with connected := false, fps := 0 }]
      else []

/-- C6 counterexample: a sweep over a camera status 10 seconds stale emits
zero `camera_disconnected` notifications to the viewers, not exactly one —
its only effect is storing the status with `connected := false` and
`fps := 0`. -/
theorem sweep_no_notification_counterexample :
    connectionSweep ⟨true, some 0, 10, 5⟩ 10000
      = [.setStatus ⟨false, some 0, 10, 0⟩] ∧
    ((connectionSweep ⟨true, some 0, 10, 5⟩ 10000).countP
        (fun e => e.isNotify)) = 0 := by
  decide

/-- C6 amended: a sweep over a camera status whose `lastUpdate` is more
than 5000 ms old stores the status with `connected := false` and
`fps := 0` (the connected flag the status endpoints report becomes false),
and emits no notification to the viewers and closes no transport; a
fresh-enough or never-seen camera is left alone. -/
theorem sweep_stale_sets_disconnected (status : Esp32Status) (now t : Nat)
    (h : status.lastUpdate = some t) (hstale : (now : Int) - t > 5000) :
    connectionSweep status now
      = [.setStatus { status with connected := false, fps := 0 }] ∧
    (connectionSweep status now).countP (fun e => e.isNotify) = 0 := by
  refine ⟨by simp [connectionSweep, h, hstale], ?_⟩
  simp [connectionSweep, h, hstale, SweepEffect.isNotify]

/-- Witness for the amended C6 at a status 10 seconds stale. -/
theorem sweep_stale_sets_disconnected_witness :
    connectionSweep ⟨true, some 0, 10, 5⟩ 10000
      = [.setStatus ⟨false, some 0, 10, 0⟩] ∧
    (connectionSweep ⟨true, some 0, 10, 5⟩ 10000).countP
        (fun e => e.isNotify) = 0 :=
  sweep_stale_sets_disconnected ⟨true, some 0, 10, 5⟩ 10000 0 rfl (by decide)

/-- `Math.round` on a nonnegative JS number: round half away from zero,
i.e. the floor of `x + 1/2`. -/
def jsRound (q : ℚ) : ℤ := ⌊q + 1 / 2⌋

/-- The closure state of the FPS interval in `app.js`:
`framesSinceLastCheck` and `lastFpsCheck`. -/
structure FpsWindow where
  framesSinceLastCheck : Nat
  lastFpsCheck : Nat
deriving DecidableEq, Repr

/-- The FPS interval of `app.js` (part_005 lines 50-58), run every 1000 ms:
`elapsed = (now - lastFpsCheck) / 1000` seconds,
`esp32Status.fps = Math.round(framesSinceLastCheck / elapsed)`, then the
counter resets to 0 and `lastFpsCheck` advances to `now`. -/
def fpsSweep (w : FpsWindow) (status : Esp32Status) (now : Nat) :
    Esp32Status × FpsWindow :=
  let elapsed : ℚ := ((now : ℚ) - (w.lastFpsCheck : ℚ)) / 1000
  ({ status with fps := jsRound ((w.framesSinceLastCheck : ℚ) / elapsed) },
   ⟨0, now⟩)

/-- C7: after a window of exactly 1000 ms in which exactly 15 frames were
counted, the computed `fps` equals 15 and the window counter is reset to 0
(with `lastFpsCheck` advanced to the tick time). -/
theorem fps_window_fifteen (w : FpsWindow) (status : Esp32Status) (now : Nat)
    (hf : w.framesSinceLastCheck = 15) (hnow : now = w.lastFpsCheck + 1000) :
    (fpsSweep w status now).1.fps = 15 ∧
    (fpsSweep w status now).2.framesSinceLastCheck = 0 ∧
    (fpsSweep w status now).2.lastFpsCheck = now := by
  refine ⟨?_, rfl, rfl⟩
  subst hnow
  have helapsed : ((w.lastFpsCheck + 1000 : Nat) : ℚ) - (w.lastFpsCheck : ℚ) = 1000 := by
    push_cast
    ring
  show jsRound _ = 15
  rw [hf, helapsed]
  norm_num [jsRound]

/-- Witness for C7 at a window starting at 0 with 15 frames and ticking at
1000 ms. -/
theorem fps_window_fifteen_witness :
    (fpsSweep ⟨15, 0⟩ ⟨true, some 0, 15, 0⟩ 1000).1.fps = 15 ∧
    (fpsSweep ⟨15, 0⟩ ⟨true, some 0, 15, 0⟩ 1000).2.framesSinceLastCheck = 0 ∧
    (fpsSweep ⟨15, 0⟩ ⟨true, some 0, 15, 0⟩ 1000).2.lastFpsCheck = 1000 :=
  fps_window_fifteen ⟨15, 0⟩ ⟨true, some 0, 15, 0⟩ 1000 rfl rfl

/-- A disease prediction as returned by the ML service. -/
structure Prediction where
  disease : String
  confidence : ℚ
deriving DecidableEq, Repr

/-- Outcome of the `axios.post(ML_SERVICE_URL + '/predict', ...)` call: a
response whose data has `success: true` carrying a prediction, a response
without `success: true`, or a thrown error (timeout, connection refused,
HTTP error). -/
inductive MlOutcome where
  | ok (p : Prediction)
  | unsuccessful
  | failed
deriving DecidableEq, Repr

/-- The `prediction` variable after the capture handler's inner
try/catch: set only when the call returned `success: true`; a thrown error
is caught, logged and swallowed. -/
def mlPrediction : MlOutcome → Option Prediction
  | .ok p => some p
  | .unsuccessful => none
  | .failed => none

/-- The JSON body of a successful `POST /capture` response. -/
structure CaptureResponse where
  success : Bool
  size : Nat
  production : Bool
  savedFilename : Option String
  diseasePrediction : Option Prediction
deriving DecidableEq, Repr

/-- Result of `POST /capture`: 404 when no frame is cached, else the 200
JSON body. -/
inductive CaptureResult where
  | noFrame
  | ok (r : CaptureResponse)
deriving DecidableEq, Repr

/-- `router.post('/capture')` (camera router, part_006 lines 120-232):
404 when nothing is cached; otherwise save the frame to disk in
development mode (a save failure is caught and only drops the
saved-file fields), call the ML service (a failure is caught and only
drops `disease_prediction`), and answer `success: true`. The handler never
writes `latestFrame`, so the pair returned here carries the cache
unchanged. -/
def capture (latestFrame : Option Frame) (isProduction : Bool)
    (saveOk : Bool) (filename : String) (ml : MlOutcome) :
    CaptureResult × Option Frame :=
  match latestFrame with
  | none => (.noFrame, none)
  | some f =>
      let saved : Option String :=
        if !isProduction && saveOk then some filename else none
      (.ok { success := true, size := f.length, production := isProduction,
             savedFilename := saved, diseasePrediction := mlPrediction ml },
       some f)

/-- C10: a capture request made while a frame is cached answers
`success: true` even when the ML prediction call throws (times out, is
refused, or errors); the error is swallowed, the response simply omits the
`disease_prediction` field, and the cached frame is unchanged. -/
theorem capture_swallows_ml_failure (f : Frame) (isProd saveOk : Bool)
    (fn : String) (ml : MlOutcome) (hml : ml = MlOutcome.failed) :
    (capture (some f) isProd saveOk fn ml).1
      = .ok { success := true, size := f.length, production := isProd,
              savedFilename := if !isProd && saveOk then some fn else none,
              diseasePrediction := none } ∧
    (capture (some f) isProd saveOk fn ml).2 = some f := by
  subst hml
  simp [capture, mlPrediction]

/-- Witness for C10: a development-mode capture of frame [1, 2, 3] with a
failing ML call. -/
theorem capture_swallows_ml_failure_witness :
    (capture (some [1, 2, 3]) false true "img.jpg" .failed).1
      = .ok { success := true, size := 3, production := false,
              savedFilename := if !false && true then some "img.jpg" else none,
              diseasePrediction := none } ∧
    (capture (some [1, 2, 3]) false true "img.jpg" .failed).2 = some [1, 2, 3] :=
  capture_swallows_ml_failure [1, 2, 3] false true "img.jpg" .failed rfl

/-- A device connection attempting to occupy a singular role slot. -/
structure Connection where
  cid : Nat
deriving DecidableEq, Repr

/-- Modelled from the spec: the WebSocket connection handler that assigns a
newly identified camera or car connection into its singular slot is not
among the provided sources — only its readers are (the routes read the
single `esp32CarClient` / `esp32CameraClient` application fields). Per the
spec's RoleSlot contract, a slot holds at most one connection and
"assigning a new Connection to an occupied slot evicts (closes) the
previous occupant": the new connection becomes the sole occupant and the
previous occupant, if any, is returned as closed. -/
def assignSlot (slot : Option Connection) (c : Connection) :
    Option Connection × List Connection :=
  match slot with
  | none => (some c, [])
  | some old => (some c, [old])

/-- One assignment step on the pair (slot occupant, closed connections so
far). -/
def assignStep (a : Option Connection × List Connection) (c : Connection) :
    Option Connection × List Connection :=
  ((assignSlot a.1 c).1, a.2 ++ (assignSlot a.1 c).2)

/-- Final slot occupant and accumulated list of closed (evicted)
connections after a sequence of assignments into an initially empty slot. -/
def runAssignments (cs : List Connection) :
    Option Connection × List Connection :=
  cs.foldl assignStep (none, [])

/-- The slot occupant after each prefix of a sequence of assignments,
starting from the empty slot. -/
def slotTrace (cs : List Connection) : List (Option Connection) :=
  cs.scanl (fun s c => (assignSlot s c).1) none

theorem getLast?_cons_getD (c : Connection) (cs : List Connection) :
    (c :: cs).getLast? = some (cs.getLast?.getD c) := by
  induction cs generalizing c with
  | nil => rfl
  | cons g gs ih =>
      rw [List.getLast?_cons_cons, ih g]
      simp

theorem runAssignments_from (cs : List Connection) :
    ∀ (c : Connection) (acc : List Connection),
      cs.foldl assignStep (some c, acc)
      = (some (cs.getLast?.getD c), acc ++ (c :: cs).dropLast) := by
  induction cs with
  | nil => intro c acc; simp
  | cons b bs ih =>
      intro c acc
      rw [List.foldl_cons]
      have hstep : assignStep (some c, acc) b = (some b, acc ++ [c]) := rfl
      rw [hstep, ih b (acc ++ [c])]
      cases bs with
      | nil => simp
      | cons g gs =>
          rw [List.getLast?_cons_cons, getLast?_cons_getD g gs]
          simp [List.dropLast_cons₂, List.append_assoc]

/-- C8: (spec-modelled registry) at every instant of any sequence of
connection attempts the singular slot holds at most one occupant; the final
occupant is the last connection assigned, and every earlier occupant was
evicted (closed), in order. -/
theorem slot_single_occupant (cs : List Connection) :
    (∀ s ∈ slotTrace cs, s.toList.length ≤ 1) ∧
    (runAssignments cs).2 = cs.dropLast ∧
    (∀ l, cs.getLast? = some l → (runAssignments cs).1 = some l) := by
  refine ⟨fun s _ => ?_, ?_, ?_⟩
  · cases s <;> simp
  · cases cs with
    | nil => simp [runAssignments]
    | cons c csTail =>
        rw [runAssignments, List.foldl_cons]
        have hstep : assignStep (none, []) c = (some c, []) := rfl
        rw [hstep, runAssignments_from csTail c []]
        simp
  · intro l hl
    cases cs with
    | nil => simp at hl
    | cons c csTail =>
        rw [runAssignments, List.foldl_cons]
        have hstep : assignStep (none, []) c = (some c, []) := rfl
        rw [hstep, runAssignments_from csTail c []]
        rw [getLast?_cons_getD] at hl
        exact congrArg some (Option.some.injEq _ _ |>.mp hl)

/-- Witness for C8 at the assignment sequence 1, 2, 3: the slot ends
holding connection 3, connections 1 and 2 were evicted in order, and every
intermediate slot state held at most one occupant. -/
theorem slot_single_occupant_witness :
    (∀ s ∈ slotTrace [⟨1⟩, ⟨2⟩, ⟨3⟩], s.toList.length ≤ 1) ∧
    (runAssignments [⟨1⟩, ⟨2⟩, ⟨3⟩]).2 = ([⟨1⟩, ⟨2⟩, ⟨3⟩] : List Connection).dropLast ∧
    (∀ l, ([⟨1⟩, ⟨2⟩, ⟨3⟩] : List Connection).getLast? = some l →
      (runAssignments [⟨1⟩, ⟨2⟩, ⟨3⟩]).1 = some l) :=
  slot_single_occupant [⟨1⟩, ⟨2⟩, ⟨3⟩]

end IotBackend
